import Mathlib

/-!
# Mock TAPS server: rotation cursor and query handler

A shallow embedding of `src/main.go`.  The program loads a sequence of
snapshots (`mockResponses`), keeps an index into it (`currentIndex`), advances
that index on every tick of a timer, and serves the snapshot under the index on
`/location/get`.

* Go's `int` is modelled as `Int` with explicit 64-bit wrap-around (`wrapInt`),
  and `%` as truncated remainder that panics on a zero divisor (`goRem`).
* `json.Marshal`, `json.Unmarshal`, `ioutil.ReadFile` and the behaviour of the
  connection under `Write` are library or environment behaviour: they are
  parameters (`Env`, `World`).
* `http.ResponseWriter` follows the contract documented in `net/http`: the first
  `WriteHeader` fixes the status, a `Write` before any `WriteHeader` fixes it to
  200, later `WriteHeader` calls change nothing.
* The element type `taps.Bus` lives outside the repository; it is a type
  parameter `Bus`.
-/

namespace MockTaps

/-! ## Go runtime -/

/-- Two's-complement wrap-around of a mathematical integer into Go's 64-bit `int`. -/
def wrapInt (x : Int) : Int := (x + 2 ^ 63) % 2 ^ 64 - 2 ^ 63

/-- Largest value of Go's 64-bit `int`. -/
def maxInt : Int := 2 ^ 63 - 1

/-- Run-time panics the program can raise. -/
inductive Panic where
  | divideByZero
  | indexOutOfRange
  deriving DecidableEq, Repr

/-- Go's `a % b` on `int`: truncated remainder, a run-time panic when `b` is zero. -/
def goRem (a b : Int) : Except Panic Int :=
  if b = 0 then .error .divideByZero else .ok (Int.tmod a b)

/-- Raw bytes (`[]byte`). -/
abbrev Bytes := List UInt8

/-- Size in bytes of one element of `[][]taps.Bus`: a slice header (pointer, length, capacity). -/
def sliceHeaderBytes : Nat := 24

/-- A value of Go type `[][]taps.Bus`: the snapshots in order.  The backing
array of a slice lies inside the 64-bit address space, which bounds its length. -/
structure SnapshotSeq (Bus : Type) where
  toList : List (List Bus)
  fits : toList.length * sliceHeaderBytes < 2 ^ 64

/-- Go's `len(mockResponses)`. -/
def SnapshotSeq.len {Bus : Type} (m : SnapshotSeq Bus) : Int := (m.toList.length : Int)

/-- Go's `mockResponses[i]`: `none` stands for the index-out-of-range panic. -/
def SnapshotSeq.index {Bus : Type} (m : SnapshotSeq Bus) (i : Int) : Option (List Bus) :=
  if 0 ≤ i then m.toList.get? i.toNat else none

/-! ## Shared state and the rotation goroutine -/

/-- The variables captured by both closures of `main`: the loaded sequence and the cursor. -/
structure State (Bus : Type) where
  mockResponses : SnapshotSeq Bus
  currentIndex : Int

/-- The cursor update of line 98, `(currentIndex + 1 + len) % len`, on Go `int`s:
the sum is evaluated left to right and each addition wraps. -/
def nextIndex (currentIndex len : Int) : Except Panic Int :=
  goRem (wrapInt (wrapInt (currentIndex + 1) + len)) len

/-- The plain modular increment `(cursor + 1) mod length` of the specification, on Go `int`s. -/
def nextIndexPlain (cursor length : Int) : Except Panic Int :=
  goRem (wrapInt (cursor + 1)) length

/-- The loop body with the update the specification writes, `(cursor + 1) mod length`:
the comparison point for `tick`. -/
def tickPlain {Bus : Type} (s : State Bus) : Except Panic (State Bus) :=
  match nextIndexPlain s.currentIndex s.mockResponses.len with
  | .error p => .error p
  | .ok i => .ok { mockResponses := s.mockResponses, currentIndex := i }

/-- One execution of the loop body of the rotation goroutine (lines 97 to 99),
which runs as one atomic step under the mutex. -/
def tick {Bus : Type} (s : State Bus) : Except Panic (State Bus) :=
  match nextIndex s.currentIndex s.mockResponses.len with
  | .error p => .error p
  | .ok i => .ok { mockResponses := s.mockResponses, currentIndex := i }

/-- The loop body executed `k` times in a row. -/
def tickN {Bus : Type} : Nat → State Bus → Except Panic (State Bus)
  | 0, s => .ok s
  | k + 1, s =>
    match tick s with
    | .error p => .error p
    | .ok t => tickN k t

/-- The closure state right after line 93: the loaded sequence with the cursor at 0. -/
def initState {Bus : Type} (m : SnapshotSeq Bus) : State Bus :=
  { mockResponses := m, currentIndex := 0 }

/-- The cursor is a valid index: `0 ≤ currentIndex < len(mockResponses)`. -/
def State.inRange {Bus : Type} (s : State Bus) : Prop :=
  0 ≤ s.currentIndex ∧ s.currentIndex < s.mockResponses.len

instance {Bus : Type} (s : State Bus) : Decidable s.inRange := by
  unfold State.inRange; infer_instance

/-! ## The response writer -/

/-- The observable state of an `http.ResponseWriter`. -/
structure ResponseWriter where
  header : List (String × String)
  wroteHeader : Bool
  status : Nat
  body : Bytes
  deriving DecidableEq, Repr

/-- The writer handed to the handler at the start of a request. -/
def ResponseWriter.fresh : ResponseWriter :=
  { header := [], wroteHeader := false, status := 0, body := [] }

/-- The call `w.Header().Set(key, value)`. -/
def ResponseWriter.setHeader (w : ResponseWriter) (key value : String) : ResponseWriter :=
  { w with header := (key, value) :: w.header.filter (fun kv => kv.1 != key) }

/-- The call `w.WriteHeader(code)`: only the first call takes effect. -/
def ResponseWriter.WriteHeader (w : ResponseWriter) (code : Nat) : ResponseWriter :=
  if w.wroteHeader then w else { w with wroteHeader := true, status := code }

/-- The call `w.Write(data)`.  If no header was written yet the status becomes
200 first.  `outcome` is what the connection does with the data: `none` when all
of it is written, `some (n, err)` when the write fails with `err` after `n` bytes. -/
def ResponseWriter.Write (w : ResponseWriter) (data : Bytes) (outcome : Option (Nat × String)) :
    ResponseWriter × Option String :=
  let w1 := w.WriteHeader 200
  match outcome with
  | none => ({ w1 with body := w1.body ++ data }, none)
  | some (n, err) => ({ w1 with body := w1.body ++ data.take n }, some err)

/-- The status code `http.StatusInternalServerError`. -/
def StatusInternalServerError : Nat := 500

/-- The status code `http.StatusOK`. -/
def StatusOK : Nat := 200

/-- The bytes of `[]byte("[]")`: an opening and a closing square bracket. -/
def emptyArrayBody : Bytes := [0x5B, 0x5D]

/-! ## The handler of `/location/get` -/

/-- What a request finds in its environment: the result of `json.Marshal` on a
snapshot, and the outcome of writing given bytes to the connection. -/
structure Env (Bus : Type) where
  marshal : List Bus → Except String Bytes
  write : Bytes → Option (Nat × String)

/-- The steps of the handler, in program order. -/
inductive Event where
  | setHeader (key value : String)
  | lock
  | unlock
  | marshal (index : Int)
  | logPrintln (msg : String)
  | writeHeader (code : Nat)
  | write (data : Bytes)
  deriving DecidableEq, Repr

/-- The outcome of one run of the handler. -/
structure HandlerResult (Bus : Type) where
  state : State Bus
  w : ResponseWriter
  trace : List Event
  panic : Option Panic

/-- The closure registered for `/location/get` (lines 110 to 130), run on the
shared state `s` and the writer `w`.  The handler never assigns to the shared
variables, so the state it leaves is the one it found. -/
def handler {Bus : Type} (env : Env Bus) (s : State Bus) (w : ResponseWriter) :
    HandlerResult Bus :=
  let w0 := w.setHeader "Content-Type" "application/json"
  let t0 := [Event.setHeader "Content-Type" "application/json", Event.lock]
  match s.mockResponses.index s.currentIndex with
  | none =>
    -- the index expression panics while the mutex is held
    { state := s, w := w0, trace := t0, panic := some .indexOutOfRange }
  | some snapshot =>
    let t1 := t0 ++ [Event.marshal s.currentIndex, Event.unlock]
    match env.marshal snapshot with
    | .error err =>
      let w1 := w0.WriteHeader StatusInternalServerError
      let t2 := t1 ++ [Event.logPrintln err, Event.writeHeader StatusInternalServerError,
        Event.write emptyArrayBody]
      match w1.Write emptyArrayBody (env.write emptyArrayBody) with
      | (w2, some err2) =>
        { state := s, w := w2, trace := t2 ++ [Event.logPrintln err2], panic := none }
      | (w2, none) =>
        { state := s, w := w2, trace := t2, panic := none }
    | .ok responseBytes =>
      let t2 := t1 ++ [Event.write responseBytes]
      match w0.Write responseBytes (env.write responseBytes) with
      | (w1, some err) =>
        let w2 := w1.WriteHeader StatusInternalServerError
        { state := s, w := w2,
          trace := t2 ++ [Event.writeHeader StatusInternalServerError, Event.logPrintln err],
          panic := none }
      | (w1, none) =>
        { state := s, w := w1, trace := t2, panic := none }

/-- The data arguments of the `Write` calls of a trace, in order. -/
def bodyWrites : List Event → List Bytes
  | [] => []
  | .write data :: es => data :: bodyWrites es
  | _ :: es => bodyWrites es

/-- The events of a trace that happen while the mutex is held, given whether it
is held at the start; `lock` and `unlock` themselves are not listed. -/
def heldEvents : Bool → List Event → List Event
  | _, [] => []
  | _, .lock :: es => heldEvents true es
  | _, .unlock :: es => heldEvents false es
  | held, e :: es => if held then e :: heldEvents held es else heldEvents held es

/-- The events of a trace that happen while the mutex is not held. -/
def freeEvents : Bool → List Event → List Event
  | _, [] => []
  | _, .lock :: es => freeEvents true es
  | _, .unlock :: es => freeEvents false es
  | held, e :: es => if held then freeEvents held es else e :: freeEvents held es

/-- Whether an event is a serialization (`json.Marshal`). -/
def Event.isMarshal : Event → Bool
  | .marshal _ => true
  | _ => false

/-- Serialization stays outside the critical section: no step taken while the
mutex is held is a `json.Marshal`. -/
def marshalOutsideLock (trace : List Event) : Prop :=
  ∀ e ∈ heldEvents false trace, e.isMarshal = false

/-- One atomic step of the running server on the shared state: a tick of the
rotation goroutine, or a request served by the handler. -/
inductive Step {Bus : Type} : State Bus → State Bus → Prop where
  | tick {s t : State Bus} : tick s = .ok t → Step s t
  | request {s : State Bus} (env : Env Bus) (w : ResponseWriter) :
      Step s (handler env s w).state

/-- The states the server can be in after any interleaving of ticks and requests. -/
inductive Reachable {Bus : Type} (m : SnapshotSeq Bus) : State Bus → Prop where
  | init : Reachable m (initState m)
  | step {s t : State Bus} : Reachable m s → Step s t → Reachable m t

/-! ## Start-up -/

/-- The command-line flags of `main`. -/
structure Flags where
  port : Nat
  dataFile : String
  duration : Int

/-- What `main` finds outside the process: the result of `ioutil.ReadFile` on a
path and of `json.Unmarshal` into `[][]taps.Bus` on the bytes read. -/
structure World (Bus : Type) where
  readFile : String → Except String Bytes
  unmarshal : Bytes → Except String (SnapshotSeq Bus)

/-- The steps of `main`, in program order. -/
inductive MainEvent where
  | readFile (path : String)
  | unmarshal
  | logFatal (err : String)
  | goRotation
  | setupServer (port : Nat)
  | handleFunc (pattern : String)
  | logPrintf (format : String)
  | listenAndServe
  deriving DecidableEq, Repr

/-- How far `main` gets: its steps, the exit code when it stopped in `log.Fatal`
before serving, and the state shared by the goroutine and the handler once created. -/
structure MainResult (Bus : Type) where
  trace : List MainEvent
  exitCode : Option Nat
  state : Option (State Bus)

/-- The function `main` up to the call of `ListenAndServe` (lines 70 to 140).
`log.Fatal` logs and exits with status 1. -/
def main {Bus : Type} (world : World Bus) (flags : Flags) : MainResult Bus :=
  match world.readFile flags.dataFile with
  | .error err =>
    { trace := [.readFile flags.dataFile, .logFatal err], exitCode := some 1, state := none }
  | .ok mockBytes =>
    match world.unmarshal mockBytes with
    | .error err =>
      { trace := [.readFile flags.dataFile, .unmarshal, .logFatal err],
        exitCode := some 1, state := none }
    | .ok mockResponses =>
      { trace := [.readFile flags.dataFile, .unmarshal, .goRotation, .setupServer flags.port,
          .handleFunc "/location/get",
          .logPrintf "Using file %s as mock data",
          .logPrintf "Data points are updated ~every %v",
          .logPrintf "Starting server on %s",
          .logPrintf "Send queries to http://%s/location/get",
          .listenAndServe],
        exitCode := none, state := some (initState mockResponses) }

/-! ## Concrete inputs -/

/-- The two-snapshot sequence of the specification's example, with the records
reduced to their identifiers. -/
def twoSnapshots : SnapshotSeq String :=
  { toList := [["A"], ["B"]], fits := by decide }

/-- A sequence of three snapshots. -/
def threeSnapshots : SnapshotSeq String :=
  { toList := [["A"], ["B"], ["C", "D"]], fits := by decide }

/-- The sequence a data file holding `[]` decodes to. -/
def noSnapshots : SnapshotSeq String :=
  { toList := [], fits := by decide }

/-- A serializer that always succeeds: the identifiers, each followed by a comma. -/
def marshalIds (snapshot : List String) : Except String Bytes :=
  .ok (snapshot.flatMap (fun id => id.toList.map (fun ch => ch.toNat.toUInt8) ++ [0x2C]))

/-- A request whose serialization and body write both succeed. -/
def goodEnv : Env String :=
  { marshal := marshalIds, write := fun _ => none }

/-- A request whose serialization fails while the connection is fine. -/
def failingMarshalEnv : Env String :=
  { marshal := fun _ => .error "json: unsupported value", write := fun _ => none }

/-- A request whose serialization succeeds and whose body write fails after one byte. -/
def brokenPipeEnv : Env String :=
  { marshal := marshalIds, write := fun _ => some (1, "write: broken pipe") }

/-- The default values of the flags. -/
def defaultFlags : Flags :=
  { port := 8080, dataFile := "data/feb-25-interval-3s-1850-queries.json",
    duration := 3000000000 }

/-- A world in which the data file cannot be read. -/
def missingFileWorld : World String :=
  { readFile := fun _ => .error "open: no such file or directory",
    unmarshal := fun _ => .ok twoSnapshots }

/-- A world in which the data file holds one opening brace, which does not decode. -/
def malformedFileWorld : World String :=
  { readFile := fun _ => .ok [0x7B],
    unmarshal := fun _ => .error "unexpected end of JSON input" }

/-- A world in which the data file holds `[]`, which decodes to the empty sequence. -/
def emptyFileWorld : World String :=
  { readFile := fun _ => .ok emptyArrayBody,
    unmarshal := fun b => if b = emptyArrayBody then .ok noSnapshots
      else .error "invalid character" }

/-! ## Arithmetic of the cursor update -/

theorem wrapInt_of_fits (x : Int) (h1 : -(2 ^ 63) ≤ x) (h2 : x < 2 ^ 63) : wrapInt x = x := by
  unfold wrapInt
  omega

theorem emod_of_lt_twice (x n : Int) (h0 : 0 ≤ x) (h1 : x < n + n) :
    x % n = if x < n then x else x - n := by
  split
  · exact Int.emod_eq_of_lt h0 (by assumption)
  · have h2 : x % n = (x - n) % n := by
      rw [Int.sub_emod, Int.emod_self, sub_zero, Int.emod_emod]
    rw [h2]
    exact Int.emod_eq_of_lt (by omega) (by omega)

theorem nextIndex_ok (c n : Int) (hn : 1 ≤ n) (hc0 : 0 ≤ c)
    (hov : c + 1 + n ≤ maxInt) : nextIndex c n = .ok ((c + 1) % n) := by
  unfold maxInt at hov
  unfold nextIndex goRem
  rw [wrapInt_of_fits (c + 1) (by omega) (by omega),
    wrapInt_of_fits (c + 1 + n) (by omega) (by omega), if_neg (by omega),
    Int.tmod_eq_emod (by omega) (by omega), Int.add_emod_self]

theorem nextIndexPlain_ok (c n : Int) (hn : 1 ≤ n) (hc0 : 0 ≤ c)
    (hov : c + 1 + n ≤ maxInt) : nextIndexPlain c n = .ok ((c + 1) % n) := by
  unfold maxInt at hov
  unfold nextIndexPlain goRem
  rw [wrapInt_of_fits (c + 1) (by omega) (by omega), if_neg (by omega),
    Int.tmod_eq_emod (by omega) (by omega)]

theorem len_bound {Bus : Type} (m : SnapshotSeq Bus) : m.len + m.len + 1 ≤ maxInt := by
  have h := m.fits
  unfold sliceHeaderBytes at h
  unfold SnapshotSeq.len maxInt
  omega

theorem len_nonneg {Bus : Type} (m : SnapshotSeq Bus) : 0 ≤ m.len := by
  unfold SnapshotSeq.len
  omega

theorem tick_of_inRange {Bus : Type} (s : State Bus) (h : s.inRange) :
    tick s = .ok { mockResponses := s.mockResponses,
                   currentIndex := (s.currentIndex + 1) % s.mockResponses.len } := by
  obtain ⟨h0, h1⟩ := h
  have hb := len_bound s.mockResponses
  unfold tick
  rw [nextIndex_ok s.currentIndex s.mockResponses.len (by omega) h0 (by omega)]

theorem tickPlain_of_inRange {Bus : Type} (s : State Bus) (h : s.inRange) :
    tickPlain s = .ok { mockResponses := s.mockResponses,
                        currentIndex := (s.currentIndex + 1) % s.mockResponses.len } := by
  obtain ⟨h0, h1⟩ := h
  have hb := len_bound s.mockResponses
  unfold tickPlain
  rw [nextIndexPlain_ok s.currentIndex s.mockResponses.len (by omega) h0 (by omega)]

theorem emod_inRange (x n : Int) (hn : 0 < n) : 0 ≤ x % n ∧ x % n < n :=
  ⟨Int.emod_nonneg x (by omega), Int.emod_lt_of_pos x hn⟩

theorem tickN_of_inRange {Bus : Type} (k : Nat) (m : SnapshotSeq Bus) (c : Int)
    (h0 : 0 ≤ c) (h1 : c < m.len) :
    tickN k { mockResponses := m, currentIndex := c } =
      .ok { mockResponses := m, currentIndex := (c + k) % m.len } := by
  induction k generalizing c with
  | zero =>
    simp only [tickN, Nat.cast_zero, add_zero]
    rw [Int.emod_eq_of_lt h0 h1]
  | succ k ih =>
    have hr := emod_inRange (c + 1) m.len (by omega)
    simp only [tickN]
    rw [tick_of_inRange { mockResponses := m, currentIndex := c } ⟨h0, h1⟩]
    simp only
    rw [ih ((c + 1) % m.len) hr.1 hr.2, Int.emod_add_emod]
    congr 3
    push_cast
    ring

theorem len_pos_of_length {Bus : Type} (m : SnapshotSeq Bus) (hL : 1 ≤ m.toList.length) :
    0 < m.len := by
  unfold SnapshotSeq.len
  omega

theorem state_ok_inj {Bus : Type} (m : SnapshotSeq Bus) (a b : Int) :
    ((.ok { mockResponses := m, currentIndex := a } : Except Panic (State Bus)) =
      .ok { mockResponses := m, currentIndex := b }) ↔ a = b := by
  constructor
  · intro h
    injection h with h
    injection h
  · intro h
    rw [h]

theorem handler_state {Bus : Type} (env : Env Bus) (s : State Bus) (w : ResponseWriter) :
    (handler env s w).state = s := by
  unfold handler
  simp only
  split
  · rfl
  · split
    · split <;> rfl
    · split <;> rfl

theorem index_of_inRange {Bus : Type} (s : State Bus) (h : s.inRange) :
    ∃ snapshot, s.mockResponses.index s.currentIndex = some snapshot ∧
      s.mockResponses.toList.get? s.currentIndex.toNat = some snapshot := by
  obtain ⟨h0, h1⟩ := h
  unfold SnapshotSeq.len at h1
  have hlt : s.currentIndex.toNat < s.mockResponses.toList.length := by omega
  refine ⟨s.mockResponses.toList.get ⟨s.currentIndex.toNat, hlt⟩, ?_, ?_⟩
  · unfold SnapshotSeq.index
    rw [if_pos h0]
    exact List.get?_eq_get hlt
  · exact List.get?_eq_get hlt

theorem handler_panic_of_inRange {Bus : Type} (env : Env Bus) (s : State Bus)
    (w : ResponseWriter) (h : s.inRange) : (handler env s w).panic = none := by
  obtain ⟨snapshot, hsnap, _⟩ := index_of_inRange s h
  unfold handler
  simp only [hsnap]
  split
  · split <;> rfl
  · split <;> rfl

theorem step_preserves {Bus : Type} (m : SnapshotSeq Bus) (s t : State Bus)
    (hm : s.mockResponses = m) (hs : s.inRange) (hst : Step s t) :
    t.mockResponses = m ∧ t.inRange := by
  cases hst with
  | tick ht =>
    rw [tick_of_inRange s hs] at ht
    injection ht with ht
    subst ht
    have hr := emod_inRange (s.currentIndex + 1) s.mockResponses.len (by
      obtain ⟨h0, h1⟩ := hs
      omega)
    exact ⟨hm, hr⟩
  | request env w =>
    rw [handler_state]
    exact ⟨hm, hs⟩

theorem reachable_inv {Bus : Type} (m : SnapshotSeq Bus)
    (hL : 1 ≤ m.toList.length) (s : State Bus) (h : Reachable m s) :
    s.mockResponses = m ∧ s.inRange := by
  induction h with
  | init => exact ⟨rfl, le_refl 0, len_pos_of_length m hL⟩
  | step _ hst ih => exact step_preserves m _ _ ih.1 ih.2 hst

theorem handler_served {Bus : Type} (env : Env Bus) (s : State Bus) (snapshot : List Bus)
    (b : Bytes) (hidx : s.mockResponses.index s.currentIndex = some snapshot)
    (hm : env.marshal snapshot = .ok b) (hw : env.write b = none) :
    handler env s ResponseWriter.fresh =
      { state := s,
        w := { header := [("Content-Type", "application/json")], wroteHeader := true,
               status := StatusOK, body := b },
        trace := [Event.setHeader "Content-Type" "application/json", Event.lock,
          Event.marshal s.currentIndex, Event.unlock, Event.write b],
        panic := none } := by
  simp [handler, hidx, hm, hw, ResponseWriter.Write, ResponseWriter.WriteHeader,
    ResponseWriter.setHeader, ResponseWriter.fresh, StatusOK]

theorem handler_write_failed {Bus : Type} (env : Env Bus) (s : State Bus) (snapshot : List Bus)
    (b : Bytes) (n : Nat) (err : String)
    (hidx : s.mockResponses.index s.currentIndex = some snapshot)
    (hm : env.marshal snapshot = .ok b) (hw : env.write b = some (n, err)) :
    handler env s ResponseWriter.fresh =
      { state := s,
        w := { header := [("Content-Type", "application/json")], wroteHeader := true,
               status := StatusOK, body := b.take n },
        trace := [Event.setHeader "Content-Type" "application/json", Event.lock,
          Event.marshal s.currentIndex, Event.unlock, Event.write b,
          Event.writeHeader StatusInternalServerError, Event.logPrintln err],
        panic := none } := by
  simp [handler, hidx, hm, hw, ResponseWriter.Write, ResponseWriter.WriteHeader,
    ResponseWriter.setHeader, ResponseWriter.fresh, StatusOK]

theorem handler_marshal_failed {Bus : Type} (env : Env Bus) (s : State Bus)
    (snapshot : List Bus) (err : String)
    (hidx : s.mockResponses.index s.currentIndex = some snapshot)
    (hm : env.marshal snapshot = .error err) :
    handler env s ResponseWriter.fresh =
      { state := s,
        w := { header := [("Content-Type", "application/json")], wroteHeader := true,
               status := StatusInternalServerError,
               body := match env.write emptyArrayBody with
                 | none => emptyArrayBody
                 | some (n, _) => emptyArrayBody.take n },
        trace := [Event.setHeader "Content-Type" "application/json", Event.lock,
          Event.marshal s.currentIndex, Event.unlock, Event.logPrintln err,
          Event.writeHeader StatusInternalServerError, Event.write emptyArrayBody] ++
          match env.write emptyArrayBody with
          | none => []
          | some (_, err2) => [Event.logPrintln err2],
        panic := none } := by
  cases hw : env.write emptyArrayBody with
  | none =>
    simp [handler, hidx, hm, hw, ResponseWriter.Write, ResponseWriter.WriteHeader,
      ResponseWriter.setHeader, ResponseWriter.fresh]
  | some p =>
    obtain ⟨n, err2⟩ := p
    simp [handler, hidx, hm, hw, ResponseWriter.Write, ResponseWriter.WriteHeader,
      ResponseWriter.setHeader, ResponseWriter.fresh]

theorem index_after_ticks {Bus : Type} (m : SnapshotSeq Bus) (hL : 1 ≤ m.toList.length)
    (k : Nat) :
    ∃ snapshot, m.toList.get? (k % m.toList.length) = some snapshot ∧
      m.index ((0 + (k : Int)) % m.len) = some snapshot := by
  have hlt : k % m.toList.length < m.toList.length := Nat.mod_lt _ (by omega)
  refine ⟨m.toList.get ⟨k % m.toList.length, hlt⟩, List.get?_eq_get hlt, ?_⟩
  unfold SnapshotSeq.index SnapshotSeq.len
  rw [zero_add, ← Int.natCast_mod, if_pos (by omega), Int.toNat_natCast]
  exact List.get?_eq_get hlt

theorem held_events_of_inRange {Bus : Type} (env : Env Bus) (s : State Bus)
    (w : ResponseWriter) (hs : s.inRange) :
    heldEvents false (handler env s w).trace = [Event.marshal s.currentIndex] ∧
      freeEvents false (handler env s w).trace =
        Event.setHeader "Content-Type" "application/json" ::
          (handler env s w).trace.drop 4 := by
  obtain ⟨snapshot, hsnap, _⟩ := index_of_inRange s hs
  unfold handler
  simp only [hsnap]
  split
  · split <;> simp [heldEvents, freeEvents]
  · split <;> simp [heldEvents, freeEvents]

/-! ## Rotation -/

/-- C1: for every snapshot sequence of length L ≥ 1 and every k, running the loop
body of the rotation goroutine k times from the state `main` sets up (cursor 0)
succeeds and leaves the sequence in place with the cursor at (0 + k) mod L. -/
theorem cursor_after_k_ticks {Bus : Type} (m : SnapshotSeq Bus) (hL : 1 ≤ m.toList.length)
    (k : Nat) :
    tickN k (initState m) =
      .ok { mockResponses := m, currentIndex := (((0 + k) % m.toList.length : Nat) : Int) } := by
  have hpos := len_pos_of_length m hL
  unfold initState
  rw [tickN_of_inRange k m 0 (le_refl 0) hpos]
  unfold SnapshotSeq.len
  rw [state_ok_inj]
  push_cast
  rfl

theorem cursor_after_k_ticks_witness :
    1 ≤ threeSnapshots.toList.length ∧
      tickN 7 (initState threeSnapshots) =
        .ok { mockResponses := threeSnapshots, currentIndex := 1 } :=
  ⟨by decide, cursor_after_k_ticks threeSnapshots (by decide) 7⟩

/-- C6: rotation is cyclic.  For every sequence of length L ≥ 1 and every starting
cursor c in [0, L), L runs of the loop body bring the cursor back to c, no
positive number of runs below L does, and every index of [0, L) is the cursor
after exactly one number of runs below L. -/
theorem rotation_is_cyclic {Bus : Type} (m : SnapshotSeq Bus) (hL : 1 ≤ m.toList.length)
    (c : Int) (hc0 : 0 ≤ c) (hcL : c < m.len) :
    tickN m.toList.length { mockResponses := m, currentIndex := c } =
        .ok { mockResponses := m, currentIndex := c } ∧
      (∀ j : Nat, 0 < j → j < m.toList.length →
        tickN j { mockResponses := m, currentIndex := c } ≠
          .ok { mockResponses := m, currentIndex := c }) ∧
      (∀ i : Int, 0 ≤ i → i < m.len →
        ∃! j : Nat, j < m.toList.length ∧
          tickN j { mockResponses := m, currentIndex := c } =
            .ok { mockResponses := m, currentIndex := i }) := by
  have hpos := len_pos_of_length m hL
  have hlen : m.len = (m.toList.length : Int) := rfl
  have key : ∀ j : Nat, j < m.toList.length →
      (c + (j : Int)) % m.len = if c + (j : Int) < m.len then c + j else c + j - m.len := by
    intro j hj
    exact emod_of_lt_twice _ _ (by omega) (by omega)
  refine ⟨?_, ?_, ?_⟩
  · rw [tickN_of_inRange _ m c hc0 hcL, state_ok_inj, ← hlen, Int.add_emod_self]
    exact Int.emod_eq_of_lt hc0 hcL
  · intro j hj0 hjL
    rw [tickN_of_inRange _ m c hc0 hcL, Ne, state_ok_inj, key j hjL]
    split <;> omega
  · intro i hi0 hiL
    refine ⟨(if c ≤ i then i - c else i - c + m.len).toNat, ⟨?_, ?_⟩, ?_⟩
    · split <;> omega
    · have hj : (if c ≤ i then i - c else i - c + m.len).toNat < m.toList.length := by
        split <;> omega
      rw [tickN_of_inRange _ m c hc0 hcL, state_ok_inj, key _ hj]
      split <;> split <;> omega
    · rintro j ⟨hjL, hj⟩
      rw [tickN_of_inRange _ m c hc0 hcL, state_ok_inj, key j hjL] at hj
      split at hj <;> split <;> omega

theorem rotation_is_cyclic_witness :
    1 ≤ threeSnapshots.toList.length ∧ (0 : Int) ≤ 2 ∧ (2 : Int) < threeSnapshots.len ∧
      (tickN threeSnapshots.toList.length { mockResponses := threeSnapshots, currentIndex := 2 } =
          .ok { mockResponses := threeSnapshots, currentIndex := 2 } ∧
        (∀ j : Nat, 0 < j → j < threeSnapshots.toList.length →
          tickN j { mockResponses := threeSnapshots, currentIndex := 2 } ≠
            .ok { mockResponses := threeSnapshots, currentIndex := 2 }) ∧
        (∀ i : Int, 0 ≤ i → i < threeSnapshots.len →
          ∃! j : Nat, j < threeSnapshots.toList.length ∧
            tickN j { mockResponses := threeSnapshots, currentIndex := 2 } =
              .ok { mockResponses := threeSnapshots, currentIndex := i })) :=
  ⟨by decide, by decide, by decide,
    rotation_is_cyclic threeSnapshots (by decide) 2 (by decide) (by decide)⟩

/-- C10: the added length is not load-bearing.  For every L ≥ 1 and every cursor c
in [0, L) with c + 1 + L within Go's int, the update of the source,
(c + 1 + L) % L, and the plain increment, (c + 1) % L, give the same index,
which is (c + 1) mod L; and on every state the server can reach, the loop body
with and without the added length give the same result. -/
theorem defensive_term_not_load_bearing :
    (∀ L c : Int, 1 ≤ L → 0 ≤ c → c < L → c + 1 + L ≤ maxInt →
      nextIndex c L = nextIndexPlain c L ∧ nextIndex c L = .ok ((c + 1) % L)) ∧
    (∀ (Bus : Type) (s : State Bus), s.inRange → tick s = tickPlain s) ∧
    (∀ (Bus : Type) (m : SnapshotSeq Bus) (s : State Bus),
      1 ≤ m.toList.length → Reachable m s → tick s = tickPlain s) := by
  refine ⟨?_, ?_, ?_⟩
  · intro L c hL hc0 _ hov
    rw [nextIndex_ok c L hL hc0 hov, nextIndexPlain_ok c L hL hc0 hov]
    exact ⟨rfl, rfl⟩
  · intro Bus s hs
    rw [tick_of_inRange s hs, tickPlain_of_inRange s hs]
  · intro Bus m s hL hs
    have hr := (reachable_inv m hL s hs).2
    rw [tick_of_inRange s hr, tickPlain_of_inRange s hr]

theorem defensive_term_not_load_bearing_witness :
    (nextIndex 2 3 = nextIndexPlain 2 3 ∧ nextIndex 2 3 = .ok ((2 + 1) % 3)) ∧
      tick { mockResponses := threeSnapshots, currentIndex := 2 } =
        tickPlain { mockResponses := threeSnapshots, currentIndex := 2 } :=
  ⟨defensive_term_not_load_bearing.1 3 2 (by decide) (by decide) (by decide) (by decide),
    defensive_term_not_load_bearing.2.1 String
      { mockResponses := threeSnapshots, currentIndex := 2 } (by decide)⟩

/-- Without the bound on c + 1 + L the two updates differ: at the largest int
as length the sum wraps to a negative number and so does its remainder. -/
theorem defensive_term_overflow :
    nextIndex (maxInt - 1) maxInt = .ok (-2) ∧ nextIndexPlain (maxInt - 1) maxInt = .ok 0 :=
  ⟨rfl, rfl⟩

/-- C3: the cursor is always in [0, L).  For every sequence of length L ≥ 1 the
initial state has its cursor in range; the loop body succeeds on every state
with the cursor in range and leaves it in range, the sequence untouched; the
handler leaves the state as it found it; hence every state reachable by
interleaving atomic ticks and requests has its cursor in range, the index
expression of the handler finds a snapshot there and the handler does not panic. -/
theorem cursor_always_in_range {Bus : Type} (m : SnapshotSeq Bus)
    (hL : 1 ≤ m.toList.length) :
    (initState m).inRange ∧
      (∀ s : State Bus, s.mockResponses = m → s.inRange →
        ∃ t, tick s = .ok t ∧ t.mockResponses = m ∧ t.inRange) ∧
      (∀ (env : Env Bus) (s : State Bus) (w : ResponseWriter), (handler env s w).state = s) ∧
      (∀ s : State Bus, Reachable m s →
        s.mockResponses = m ∧ 0 ≤ s.currentIndex ∧ s.currentIndex < m.len ∧
          (∃ snapshot, s.mockResponses.index s.currentIndex = some snapshot) ∧
          ∀ (env : Env Bus) (w : ResponseWriter), (handler env s w).panic = none) := by
  refine ⟨⟨le_refl 0, len_pos_of_length m hL⟩, ?_, handler_state, ?_⟩
  · intro s hm hs
    refine ⟨_, tick_of_inRange s hs, hm, ?_⟩
    exact emod_inRange (s.currentIndex + 1) s.mockResponses.len (by
      obtain ⟨h0, h1⟩ := hs
      omega)
  · intro s hs
    obtain ⟨hm, hr⟩ := reachable_inv m hL s hs
    obtain ⟨snapshot, hsnap, _⟩ := index_of_inRange s hr
    refine ⟨hm, hr.1, ?_, ⟨snapshot, hsnap⟩,
      fun env w => handler_panic_of_inRange env s w hr⟩
    rw [← hm]
    exact hr.2

theorem cursor_always_in_range_witness :
    1 ≤ twoSnapshots.toList.length ∧
      ((initState twoSnapshots).inRange ∧
        (∀ s : State String, s.mockResponses = twoSnapshots → s.inRange →
          ∃ t, tick s = .ok t ∧ t.mockResponses = twoSnapshots ∧ t.inRange) ∧
        (∀ (env : Env String) (s : State String) (w : ResponseWriter),
          (handler env s w).state = s) ∧
        (∀ s : State String, Reachable twoSnapshots s →
          s.mockResponses = twoSnapshots ∧ 0 ≤ s.currentIndex ∧
            s.currentIndex < twoSnapshots.len ∧
            (∃ snapshot, s.mockResponses.index s.currentIndex = some snapshot) ∧
            ∀ (env : Env String) (w : ResponseWriter), (handler env s w).panic = none)) :=
  ⟨by decide, cursor_always_in_range twoSnapshots (by decide)⟩

/-! ## Requests -/

/-- C4: for every sequence of length L ≥ 1 and every k, the state after k ticks
exists and holds the snapshot at index k mod L under the cursor; a request
handled there whose serialization and body write succeed returns normally with
status 200, the JSON content type and a body that is exactly the serialization
of that snapshot.  In particular, for a sequence of two snapshots S0 and S1 the
requests after 0, 1 and 2 ticks get the serializations of S0, S1 and S0. -/
theorem request_after_k_ticks :
    (∀ (Bus : Type) (env : Env Bus) (m : SnapshotSeq Bus), 1 ≤ m.toList.length → ∀ k : Nat,
      ∃ (s : State Bus) (snapshot : List Bus),
        tickN k (initState m) = .ok s ∧
        m.toList.get? (k % m.toList.length) = some snapshot ∧
        ∀ b : Bytes, env.marshal snapshot = .ok b → env.write b = none →
          (handler env s ResponseWriter.fresh).panic = none ∧
          (handler env s ResponseWriter.fresh).w.status = StatusOK ∧
          (handler env s ResponseWriter.fresh).w.header =
            [("Content-Type", "application/json")] ∧
          (handler env s ResponseWriter.fresh).w.body = b) ∧
    (∀ (Bus : Type) (env : Env Bus) (m : SnapshotSeq Bus) (S0 S1 : List Bus) (b0 b1 : Bytes),
      m.toList = [S0, S1] → env.marshal S0 = .ok b0 → env.marshal S1 = .ok b1 →
      env.write b0 = none → env.write b1 = none →
      ∃ s0 s1 s2 : State Bus,
        tickN 0 (initState m) = .ok s0 ∧ tickN 1 (initState m) = .ok s1 ∧
        tickN 2 (initState m) = .ok s2 ∧
        (handler env s0 ResponseWriter.fresh).w.status = StatusOK ∧
        (handler env s0 ResponseWriter.fresh).w.body = b0 ∧
        (handler env s1 ResponseWriter.fresh).w.status = StatusOK ∧
        (handler env s1 ResponseWriter.fresh).w.body = b1 ∧
        (handler env s2 ResponseWriter.fresh).w.status = StatusOK ∧
        (handler env s2 ResponseWriter.fresh).w.body = b0) := by
  have general : ∀ (Bus : Type) (env : Env Bus) (m : SnapshotSeq Bus),
      1 ≤ m.toList.length → ∀ k : Nat,
      ∃ (s : State Bus) (snapshot : List Bus),
        tickN k (initState m) = .ok s ∧
        m.toList.get? (k % m.toList.length) = some snapshot ∧
        ∀ b : Bytes, env.marshal snapshot = .ok b → env.write b = none →
          (handler env s ResponseWriter.fresh).panic = none ∧
          (handler env s ResponseWriter.fresh).w.status = StatusOK ∧
          (handler env s ResponseWriter.fresh).w.header =
            [("Content-Type", "application/json")] ∧
          (handler env s ResponseWriter.fresh).w.body = b := by
    intro Bus env m hL k
    obtain ⟨snapshot, hget, hidx⟩ := index_after_ticks m hL k
    refine ⟨{ mockResponses := m, currentIndex := (0 + (k : Int)) % m.len }, snapshot,
      tickN_of_inRange k m 0 (le_refl 0) (len_pos_of_length m hL), hget, ?_⟩
    intro b hm hw
    rw [handler_served env _ snapshot b hidx hm hw]
    exact ⟨rfl, rfl, rfl, rfl⟩
  refine ⟨general, ?_⟩
  intro Bus env m S0 S1 b0 b1 hm h0 h1 hw0 hw1
  have hL : 1 ≤ m.toList.length := by rw [hm]; simp
  obtain ⟨s0, x0, ht0, hg0, hr0⟩ := general Bus env m hL 0
  obtain ⟨s1, x1, ht1, hg1, hr1⟩ := general Bus env m hL 1
  obtain ⟨s2, x2, ht2, hg2, hr2⟩ := general Bus env m hL 2
  rw [hm] at hg0 hg1 hg2
  have e0 : x0 = S0 := by
    simp at hg0
    exact hg0.symm
  have e1 : x1 = S1 := by
    simp at hg1
    exact hg1.symm
  have e2 : x2 = S0 := by
    simp at hg2
    exact hg2.symm
  subst e0 e1
  rw [e2] at hr2
  obtain ⟨_, a0, _, c0⟩ := hr0 b0 h0 hw0
  obtain ⟨_, a1, _, c1⟩ := hr1 b1 h1 hw1
  obtain ⟨_, a2, _, c2⟩ := hr2 b0 h0 hw0
  exact ⟨s0, s1, s2, ht0, ht1, ht2, a0, c0, a1, c1, a2, c2⟩

theorem request_after_k_ticks_witness :
    ∃ s0 s1 s2 : State String,
      tickN 0 (initState twoSnapshots) = .ok s0 ∧ tickN 1 (initState twoSnapshots) = .ok s1 ∧
      tickN 2 (initState twoSnapshots) = .ok s2 ∧
      (handler goodEnv s0 ResponseWriter.fresh).w.status = StatusOK ∧
      (handler goodEnv s0 ResponseWriter.fresh).w.body = [0x41, 0x2C] ∧
      (handler goodEnv s1 ResponseWriter.fresh).w.status = StatusOK ∧
      (handler goodEnv s1 ResponseWriter.fresh).w.body = [0x42, 0x2C] ∧
      (handler goodEnv s2 ResponseWriter.fresh).w.status = StatusOK ∧
      (handler goodEnv s2 ResponseWriter.fresh).w.body = [0x41, 0x2C] :=
  request_after_k_ticks.2 String goodEnv twoSnapshots ["A"] ["B"] [0x41, 0x2C] [0x42, 0x2C]
    rfl rfl rfl rfl rfl

/-- C5: for every state with the cursor in range, if serializing the current
snapshot fails, the handler returns without a panic, the response has status
500, the one body the handler writes is exactly the two bytes of an empty JSON
array, which is the whole body of the response once the connection takes it,
and the cursor and the sequence are unchanged, so that a next request whose
serialization and write succeed gets status 200 and the serialization. -/
theorem serialization_failure_response {Bus : Type} (env : Env Bus) (s : State Bus)
    (_hs : s.inRange) (snapshot : List Bus) (err : String)
    (hidx : s.mockResponses.index s.currentIndex = some snapshot)
    (hm : env.marshal snapshot = .error err) :
    (handler env s ResponseWriter.fresh).panic = none ∧
      (handler env s ResponseWriter.fresh).w.status = StatusInternalServerError ∧
      StatusInternalServerError = 500 ∧
      bodyWrites (handler env s ResponseWriter.fresh).trace = [emptyArrayBody] ∧
      emptyArrayBody.length = 2 ∧
      (env.write emptyArrayBody = none →
        (handler env s ResponseWriter.fresh).w.body = emptyArrayBody) ∧
      (handler env s ResponseWriter.fresh).state = s ∧
      (∀ (env2 : Env Bus) (b : Bytes), env2.marshal snapshot = .ok b → env2.write b = none →
        (handler env2 (handler env s ResponseWriter.fresh).state ResponseWriter.fresh).panic
            = none ∧
          (handler env2 (handler env s ResponseWriter.fresh).state ResponseWriter.fresh).w.status
            = StatusOK ∧
          (handler env2 (handler env s ResponseWriter.fresh).state ResponseWriter.fresh).w.body
            = b) := by
  have hst := handler_state env s ResponseWriter.fresh
  rw [hst, handler_marshal_failed env s snapshot err hidx hm]
  refine ⟨rfl, rfl, rfl, ?_, rfl, ?_, rfl, ?_⟩
  · cases env.write emptyArrayBody with
    | none => rfl
    | some p => rfl
  · intro hw
    simp only [hw]
  · intro env2 b hm2 hw2
    rw [handler_served env2 s snapshot b hidx hm2 hw2]
    exact ⟨rfl, rfl, rfl⟩

theorem serialization_failure_response_witness :
    (initState twoSnapshots).inRange ∧
      (handler failingMarshalEnv (initState twoSnapshots) ResponseWriter.fresh).w.status = 500 ∧
      (handler failingMarshalEnv (initState twoSnapshots) ResponseWriter.fresh).w.body
        = [0x5B, 0x5D] ∧
      (handler goodEnv
        (handler failingMarshalEnv (initState twoSnapshots) ResponseWriter.fresh).state
        ResponseWriter.fresh).w.status = 200 :=
  have h := serialization_failure_response failingMarshalEnv (initState twoSnapshots)
    (by decide) ["A"] "json: unsupported value" rfl rfl
  ⟨by decide, h.2.1, h.2.2.2.2.2.1 rfl, (h.2.2.2.2.2.2.2 goodEnv [0x41, 0x2C] rfl rfl).2.1⟩

/-- C9, as stated, fails: on the first snapshot of the two-snapshot sequence,
with a serialization of two bytes and a body write that fails after one byte,
the handler calls WriteHeader(500) only after the write fixed the status, so the
status stays 200; the only body it writes is the serialization, and the body of
the response is the first byte of it, not a fallback. -/
theorem body_write_failure_counterexample :
    (initState twoSnapshots).inRange ∧
      brokenPipeEnv.marshal ["A"] = .ok [0x41, 0x2C] ∧
      brokenPipeEnv.write [0x41, 0x2C] = some (1, "write: broken pipe") ∧
      (handler brokenPipeEnv (initState twoSnapshots) ResponseWriter.fresh).w.status = 200 ∧
      (handler brokenPipeEnv (initState twoSnapshots) ResponseWriter.fresh).w.status ≠ 500 ∧
      (handler brokenPipeEnv (initState twoSnapshots) ResponseWriter.fresh).w.body = [0x41] ∧
      bodyWrites (handler brokenPipeEnv (initState twoSnapshots) ResponseWriter.fresh).trace
        = [[0x41, 0x2C]] := by
  refine ⟨by decide, rfl, rfl, rfl, ?_, rfl, rfl⟩
  decide

/-- C9, amended: for every state with the cursor in range, if serialization
succeeds and writing the body fails after n bytes, the handler then calls
WriteHeader(500), logs the error and returns without a panic; it writes no body
besides the serialization, so the body of the response is the first n bytes of
the serialization; the cursor and the sequence are unchanged. -/
theorem body_write_failure_response {Bus : Type} (env : Env Bus) (s : State Bus)
    (_hs : s.inRange) (snapshot : List Bus) (b : Bytes) (n : Nat) (err : String)
    (hidx : s.mockResponses.index s.currentIndex = some snapshot)
    (hm : env.marshal snapshot = .ok b) (hw : env.write b = some (n, err)) :
    (handler env s ResponseWriter.fresh).panic = none ∧
      (handler env s ResponseWriter.fresh).trace.drop 4 =
        [Event.write b, Event.writeHeader StatusInternalServerError, Event.logPrintln err] ∧
      bodyWrites (handler env s ResponseWriter.fresh).trace = [b] ∧
      (handler env s ResponseWriter.fresh).w.body = b.take n ∧
      (handler env s ResponseWriter.fresh).state = s := by
  rw [handler_write_failed env s snapshot b n err hidx hm hw]
  exact ⟨rfl, rfl, rfl, rfl, rfl⟩

theorem body_write_failure_response_witness :
    (initState twoSnapshots).inRange ∧
      (handler brokenPipeEnv (initState twoSnapshots) ResponseWriter.fresh).panic = none ∧
      (handler brokenPipeEnv (initState twoSnapshots) ResponseWriter.fresh).trace.drop 4 =
        [Event.write [0x41, 0x2C], Event.writeHeader StatusInternalServerError,
          Event.logPrintln "write: broken pipe"] ∧
      bodyWrites (handler brokenPipeEnv (initState twoSnapshots) ResponseWriter.fresh).trace
        = [[0x41, 0x2C]] ∧
      (handler brokenPipeEnv (initState twoSnapshots) ResponseWriter.fresh).w.body
        = List.take 1 [0x41, 0x2C] ∧
      (handler brokenPipeEnv (initState twoSnapshots) ResponseWriter.fresh).state
        = initState twoSnapshots :=
  ⟨by decide, body_write_failure_response brokenPipeEnv (initState twoSnapshots) (by decide)
    ["A"] [0x41, 0x2C] 1 "write: broken pipe" rfl rfl rfl⟩

/-! ## The critical section -/

/-- C8, as stated, fails: in the request on the initial state of the two-snapshot
sequence the serialization is a step taken while the mutex is held. -/
theorem marshal_outside_lock_counterexample :
    heldEvents false (handler goodEnv (initState twoSnapshots) ResponseWriter.fresh).trace
        = [Event.marshal 0] ∧
      ¬ marshalOutsideLock
        (handler goodEnv (initState twoSnapshots) ResponseWriter.fresh).trace := by
  have h : heldEvents false
      (handler goodEnv (initState twoSnapshots) ResponseWriter.fresh).trace
        = [Event.marshal 0] := rfl
  refine ⟨h, ?_⟩
  intro hout
  have hm := hout (Event.marshal 0) (by rw [h]; exact List.mem_singleton.mpr rfl)
  exact Bool.noConfusion hm

/-- C8, amended: for every state with the cursor in range, the serialization of
the snapshot under the cursor is exactly the step the handler takes between
mutex.Lock and mutex.Unlock, so serialization happens inside the critical
section; setting the content type happens before the lock is taken, and the
status and body writes and the logging happen after it is released. -/
theorem marshal_inside_lock {Bus : Type} (env : Env Bus) (s : State Bus) (w : ResponseWriter)
    (hs : s.inRange) :
    (handler env s w).trace.take 4 =
        [Event.setHeader "Content-Type" "application/json", Event.lock,
          Event.marshal s.currentIndex, Event.unlock] ∧
      heldEvents false (handler env s w).trace = [Event.marshal s.currentIndex] ∧
      ¬ marshalOutsideLock (handler env s w).trace ∧
      freeEvents false (handler env s w).trace =
        Event.setHeader "Content-Type" "application/json" :: (handler env s w).trace.drop 4 ∧
      bodyWrites (freeEvents false (handler env s w).trace) =
        bodyWrites (handler env s w).trace ∧
      bodyWrites (handler env s w).trace ≠ [] := by
  obtain ⟨hheld, hfree⟩ := held_events_of_inRange env s w hs
  have htake : (handler env s w).trace.take 4 =
      [Event.setHeader "Content-Type" "application/json", Event.lock,
        Event.marshal s.currentIndex, Event.unlock] ∧
      bodyWrites (Event.setHeader "Content-Type" "application/json" ::
        (handler env s w).trace.drop 4) = bodyWrites (handler env s w).trace ∧
      bodyWrites (handler env s w).trace ≠ [] := by
    obtain ⟨snapshot, hsnap, _⟩ := index_of_inRange s hs
    unfold handler
    simp only [hsnap]
    split
    · split <;> simp [bodyWrites]
    · split <;> simp [bodyWrites]
  refine ⟨htake.1, hheld, ?_, hfree, ?_, htake.2.2⟩
  · intro hout
    have hm := hout (Event.marshal s.currentIndex)
      (by rw [hheld]; exact List.mem_singleton.mpr rfl)
    exact Bool.noConfusion hm
  · rw [hfree]
    exact htake.2.1

theorem marshal_inside_lock_witness :
    (initState twoSnapshots).inRange ∧
      heldEvents false (handler goodEnv (initState twoSnapshots) ResponseWriter.fresh).trace
        = [Event.marshal (initState twoSnapshots).currentIndex] :=
  ⟨by decide,
    (marshal_inside_lock goodEnv (initState twoSnapshots) ResponseWriter.fresh
      (by decide)).2.1⟩

/-! ## Start-up -/

/-- C7: whenever reading the data file fails, or the bytes read do not decode,
main stops in log.Fatal with exit status 1, which is its last step: the rotation
goroutine is not started, no handler is registered, ListenAndServe is not
reached and the shared state is never created. -/
theorem startup_fails_on_bad_file {Bus : Type} (world : World Bus) (flags : Flags)
    (h : (∃ err, world.readFile flags.dataFile = .error err) ∨
      (∃ mockBytes err, world.readFile flags.dataFile = .ok mockBytes ∧
        world.unmarshal mockBytes = .error err)) :
    (main world flags).exitCode = some 1 ∧
      (∃ err, (main world flags).trace.getLast? = some (MainEvent.logFatal err)) ∧
      MainEvent.goRotation ∉ (main world flags).trace ∧
      (∀ pattern, MainEvent.handleFunc pattern ∉ (main world flags).trace) ∧
      MainEvent.listenAndServe ∉ (main world flags).trace ∧
      (main world flags).state = none := by
  rcases h with ⟨err, hr⟩ | ⟨mockBytes, err, hr, hu⟩
  · simp [main, hr]
  · simp [main, hr, hu]

theorem startup_fails_on_bad_file_witness :
    ((main missingFileWorld defaultFlags).exitCode = some 1 ∧
        MainEvent.listenAndServe ∉ (main missingFileWorld defaultFlags).trace) ∧
      ((main malformedFileWorld defaultFlags).exitCode = some 1 ∧
        MainEvent.listenAndServe ∉ (main malformedFileWorld defaultFlags).trace) :=
  have h1 := startup_fails_on_bad_file missingFileWorld defaultFlags
    (Or.inl ⟨"open: no such file or directory", rfl⟩)
  have h2 := startup_fails_on_bad_file malformedFileWorld defaultFlags
    (Or.inr ⟨[0x7B], "unexpected end of JSON input", rfl, rfl⟩)
  ⟨⟨h1.1, h1.2.2.2.2.1⟩, ⟨h2.1, h2.2.2.2.2.1⟩⟩

/-- C2 does not hold of the code: whenever the data file is read and decodes to
an empty sequence, main raises no fatal error; it starts the rotation
goroutine, registers the handler and reaches ListenAndServe with the cursor at
0 over a sequence of length 0.  On that state the loop body panics on the
division by zero, and the handler panics on the index while it holds the mutex. -/
theorem empty_sequence_is_served {Bus : Type} (world : World Bus) (flags : Flags)
    (mockBytes : Bytes) (m : SnapshotSeq Bus)
    (hr : world.readFile flags.dataFile = .ok mockBytes)
    (hu : world.unmarshal mockBytes = .ok m) (hm : m.toList = []) :
    (main world flags).exitCode = none ∧
      (main world flags).trace =
        [MainEvent.readFile flags.dataFile, MainEvent.unmarshal, MainEvent.goRotation,
          MainEvent.setupServer flags.port, MainEvent.handleFunc "/location/get",
          MainEvent.logPrintf "Using file %s as mock data",
          MainEvent.logPrintf "Data points are updated ~every %v",
          MainEvent.logPrintf "Starting server on %s",
          MainEvent.logPrintf "Send queries to http://%s/location/get",
          MainEvent.listenAndServe] ∧
      (main world flags).state = some (initState m) ∧
      tick (initState m) = .error Panic.divideByZero ∧
      (∀ (env : Env Bus) (w : ResponseWriter),
        (handler env (initState m) w).panic = some Panic.indexOutOfRange ∧
          (handler env (initState m) w).trace.getLast? = some Event.lock) := by
  refine ⟨?_, ?_, ?_, ?_, ?_⟩
  · simp [main, hr, hu]
  · simp [main, hr, hu]
  · simp [main, hr, hu]
  · simp [tick, nextIndex, goRem, initState, SnapshotSeq.len, hm]
  · intro env w
    simp [handler, initState, SnapshotSeq.index, hm]

theorem empty_sequence_is_served_witness :
    (main emptyFileWorld defaultFlags).exitCode = none ∧
      MainEvent.goRotation ∈ (main emptyFileWorld defaultFlags).trace ∧
      MainEvent.listenAndServe ∈ (main emptyFileWorld defaultFlags).trace ∧
      (main emptyFileWorld defaultFlags).state = some (initState noSnapshots) ∧
      tick (initState noSnapshots) = .error Panic.divideByZero ∧
      (handler goodEnv (initState noSnapshots) ResponseWriter.fresh).panic
        = some Panic.indexOutOfRange :=
  have h := empty_sequence_is_served emptyFileWorld defaultFlags emptyArrayBody noSnapshots
    rfl rfl rfl
  ⟨h.1, by rw [h.2.1]; decide, by rw [h.2.1]; decide, h.2.2.1, h.2.2.2.1,
    (h.2.2.2.2 goodEnv ResponseWriter.fresh).1⟩

end MockTaps
